import Mathlib

/-!
Verification of the retrying user-details fetcher (`src/main.py`).

The Python module exposes one function, `fetch_user_details`, which drives a
retry loop around an injected HTTP transport (`requests.get`).  We embed it
shallowly: the transport becomes a function from the request URL and the
attempt number (counted from 1, as in the source) to the outcome of that
attempt; JSON decoding becomes part of the outcome (`none` models a body that
`response.json()` fails to decode); sleeping becomes recording the slept
duration.  The embedded `fetch_user_details` returns the final result
(the parsed document or the raised error) together with the number of
transport calls made and the list of sleep durations, in order.
-/

/-- JSON values, as produced by the standard decoder the source relies on
(`response.json()`).  Numbers are modelled as integers; the claims only need
to distinguish objects from non-objects. -/
inductive Json where
  | null : Json
  | boolean (b : Bool) : Json
  | num (n : Int) : Json
  | str (s : String) : Json
  | arr (elems : List Json) : Json
  | obj (fields : List (String × Json)) : Json
  deriving Repr

/-- Translation of `isinstance(data, dict)` from the source: the decoded
value is a JSON object. -/
def Json.isDict : Json → Bool
  | .obj _ => true
  | _ => false

/-- Outcome of one transport attempt (`requests.get`) as seen by the loop
body of `fetch_user_details`:
* `response status_code body`: a `Response` arrived; `body` is the result of
  `response.json()` (`none` when decoding raises `ValueError`);
* `connectionError` / `timeout`: `requests.exceptions.ConnectionError` /
  `Timeout` raised by the transport;
* `httpError status?`: `requests.exceptions.HTTPError` raised, carrying
  `getattr(exc.response, "status_code", None)`;
* `requestException`: any other `requests.exceptions.RequestException`. -/
inductive TransportOutcome where
  | response (status_code : Nat) (body : Option Json) : TransportOutcome
  | connectionError : TransportOutcome
  | timeout : TransportOutcome
  | httpError (status? : Option Nat) : TransportOutcome
  | requestException : TransportOutcome
  deriving Repr

/-- The errors `fetch_user_details` can raise: `ValueError`,
`PermanentAPIError`, `TransientAPIError`.  Each carries the message string
built by the source; a `TransientAPIError` raised with `raise ... from exc`
additionally carries the underlying transport outcome as its cause. -/
inductive APIError where
  | valueError (msg : String) : APIError
  | permanentAPIError (msg : String) : APIError
  | transientAPIError (msg : String) (cause : Option TransportOutcome) : APIError
  deriving Repr

/-- Translation of `_is_transient_status` from `src/main.py`:
membership in the fixed set `{408, 429, 500, 502, 503, 504}`. -/
def _is_transient_status (status_code : Nat) : Bool :=
  decide (status_code = 408 ∨ status_code = 429 ∨ status_code = 500 ∨
    status_code = 502 ∨ status_code = 503 ∨ status_code = 504)

/-- Message of `TransientAPIError(f"Transient HTTP error after {max_retries} retries")`. -/
def transientHTTPMessage (max_retries : Nat) : String :=
  "Transient HTTP error after " ++ toString max_retries ++ " retries"

/-- Message of `TransientAPIError(f"Network error after {max_retries} retries")`. -/
def networkErrorMessage (max_retries : Nat) : String :=
  "Network error after " ++ toString max_retries ++ " retries"

/-- Message of `TransientAPIError(f"Request error after {max_retries} retries")`. -/
def requestErrorMessage (max_retries : Nat) : String :=
  "Request error after " ++ toString max_retries ++ " retries"

/-- Message of `PermanentAPIError(f"Permanent HTTP error: {status_code}")`. -/
def permanentHTTPMessage (status_code : Nat) : String :=
  "Permanent HTTP error: " ++ toString status_code

/-- Observable trace of one call to `fetch_user_details`: the returned
document or raised error, how many transport calls were made, and the sleep
durations performed between attempts, in order. -/
structure FetchTrace where
  result : Except APIError Json
  calls : Nat
  sleeps : List Rat
  deriving Repr

/-- The `while True` loop of `fetch_user_details`, entered with the loop
body attempt counter (already incremented).  Mirrors `src/main.py` lines
64–212: classify the outcome of `requests.get`, return on a decoded object,
raise `PermanentAPIError` on malformed 2xx bodies and non-transient statuses,
and on transient outcomes either raise `TransientAPIError` (when
`attempt > max_retries`) or sleep `backoff` seconds and loop with
`attempt + 1` and `backoff * 2`. -/
def fetchLoop (transport : String → Nat → TransportOutcome) (url : String)
    (max_retries : Nat) (attempt : Nat) (backoff : Rat) : FetchTrace :=
  match transport url attempt with
  | .response status_code body =>
    if 200 ≤ status_code ∧ status_code < 300 then
      match body with
      | none =>
        ⟨.error (.permanentAPIError "Invalid JSON received from user service"), 1, []⟩
      | some data =>
        if data.isDict then
          ⟨.ok data, 1, []⟩
        else
          ⟨.error (.permanentAPIError "Unexpected JSON structure from user service"), 1, []⟩
    else if _is_transient_status status_code then
      if h : max_retries < attempt then
        ⟨.error (.transientAPIError (transientHTTPMessage max_retries) none), 1, []⟩
      else
        let rest := fetchLoop transport url max_retries (attempt + 1) (backoff * 2)
        ⟨rest.result, rest.calls + 1, backoff :: rest.sleeps⟩
    else
      ⟨.error (.permanentAPIError (permanentHTTPMessage status_code)), 1, []⟩
  | .connectionError =>
    if h : max_retries < attempt then
      ⟨.error (.transientAPIError (networkErrorMessage max_retries)
        (some .connectionError)), 1, []⟩
    else
      let rest := fetchLoop transport url max_retries (attempt + 1) (backoff * 2)
      ⟨rest.result, rest.calls + 1, backoff :: rest.sleeps⟩
  | .timeout =>
    if h : max_retries < attempt then
      ⟨.error (.transientAPIError (networkErrorMessage max_retries)
        (some .timeout)), 1, []⟩
    else
      let rest := fetchLoop transport url max_retries (attempt + 1) (backoff * 2)
      ⟨rest.result, rest.calls + 1, backoff :: rest.sleeps⟩
  | .httpError status? =>
    match status? with
    | some status_code =>
      if _is_transient_status status_code then
        if h : max_retries < attempt then
          ⟨.error (.transientAPIError (transientHTTPMessage max_retries)
            (some (.httpError (some status_code)))), 1, []⟩
        else
          let rest := fetchLoop transport url max_retries (attempt + 1) (backoff * 2)
          ⟨rest.result, rest.calls + 1, backoff :: rest.sleeps⟩
      else
        ⟨.error (.permanentAPIError "Permanent HTTP error from user service"), 1, []⟩
    | none =>
      ⟨.error (.permanentAPIError "Permanent HTTP error from user service"), 1, []⟩
  | .requestException =>
    if h : max_retries < attempt then
      ⟨.error (.transientAPIError (requestErrorMessage max_retries)
        (some .requestException)), 1, []⟩
    else
      let rest := fetchLoop transport url max_retries (attempt + 1) (backoff * 2)
      ⟨rest.result, rest.calls + 1, backoff :: rest.sleeps⟩
termination_by max_retries + 1 - attempt
decreasing_by all_goals omega

/-- Translation of the Python `str.strip()` call with no argument: remove leading and trailing
whitespace.  (Python strips a slightly larger set of Unicode whitespace
characters than `Char.isWhitespace`; the claims only involve ASCII
whitespace, where the two agree.) -/
def pyStrip (s : String) : String :=
  ⟨((s.data.dropWhile Char.isWhitespace).reverse.dropWhile Char.isWhitespace).reverse⟩

/-- Translation of `fetch_user_details` from `src/main.py`: validate `user_id`, build the
request URL from the stripped identifier, then run the retry loop starting
at attempt 1 with `initial_backoff`. -/
def fetch_user_details (user_id : String)
    (transport : String → Nat → TransportOutcome)
    (base_url : String) (max_retries : Nat) (initial_backoff : Rat) : FetchTrace :=
  if pyStrip user_id = "" then
    ⟨.error (.valueError "user_id must be a non-empty string"), 0, []⟩
  else
    let safe_user_id := pyStrip user_id
    let url := base_url ++ "/users/" ++ safe_user_id
    fetchLoop transport url max_retries 1 initial_backoff

/-- The exponential backoff schedule: `n` sleeps whose `k`-th element
(0-based) lasts `initial_backoff * 2 ^ k`. -/
def expBackoffs (initial_backoff : Rat) (n : Nat) : List Rat :=
  (List.range n).map (fun k => initial_backoff * 2 ^ k)

/-! ### Step lemmas: one unfolding of the loop per branch of the source. -/

theorem fetchLoop_ok (transport : String → Nat → TransportOutcome) (url : String)
    (mr a : Nat) (bo : Rat) (s : Nat) (d : Json)
    (hout : transport url a = .response s (some d))
    (hs : 200 ≤ s ∧ s < 300) (hd : d.isDict = true) :
    fetchLoop transport url mr a bo = ⟨.ok d, 1, []⟩ := by
  rw [fetchLoop.eq_def, hout]
  simp [hs, hd]

theorem fetchLoop_badJson (transport : String → Nat → TransportOutcome) (url : String)
    (mr a : Nat) (bo : Rat) (s : Nat)
    (hout : transport url a = .response s none)
    (hs : 200 ≤ s ∧ s < 300) :
    fetchLoop transport url mr a bo =
      ⟨.error (.permanentAPIError "Invalid JSON received from user service"), 1, []⟩ := by
  rw [fetchLoop.eq_def, hout]
  simp [hs]

theorem fetchLoop_notDict (transport : String → Nat → TransportOutcome) (url : String)
    (mr a : Nat) (bo : Rat) (s : Nat) (d : Json)
    (hout : transport url a = .response s (some d))
    (hs : 200 ≤ s ∧ s < 300) (hd : d.isDict = false) :
    fetchLoop transport url mr a bo =
      ⟨.error (.permanentAPIError "Unexpected JSON structure from user service"), 1, []⟩ := by
  rw [fetchLoop.eq_def, hout]
  simp [hs, hd]

theorem fetchLoop_permanentStatus (transport : String → Nat → TransportOutcome) (url : String)
    (mr a : Nat) (bo : Rat) (s : Nat) (b : Option Json)
    (hout : transport url a = .response s b)
    (hs : ¬ (200 ≤ s ∧ s < 300)) (ht : _is_transient_status s = false) :
    fetchLoop transport url mr a bo =
      ⟨.error (.permanentAPIError (permanentHTTPMessage s)), 1, []⟩ := by
  rw [fetchLoop.eq_def, hout]
  simp [hs, ht]

theorem fetchLoop_transientRaise (transport : String → Nat → TransportOutcome) (url : String)
    (mr a : Nat) (bo : Rat) (s : Nat) (b : Option Json)
    (hout : transport url a = .response s b)
    (hs : ¬ (200 ≤ s ∧ s < 300)) (ht : _is_transient_status s = true)
    (ha : mr < a) :
    fetchLoop transport url mr a bo =
      ⟨.error (.transientAPIError (transientHTTPMessage mr) none), 1, []⟩ := by
  rw [fetchLoop.eq_def, hout]
  simp [hs, ht, ha]

theorem fetchLoop_transientRetry (transport : String → Nat → TransportOutcome) (url : String)
    (mr a : Nat) (bo : Rat) (s : Nat) (b : Option Json)
    (hout : transport url a = .response s b)
    (hs : ¬ (200 ≤ s ∧ s < 300)) (ht : _is_transient_status s = true)
    (ha : ¬ mr < a) :
    fetchLoop transport url mr a bo =
      ⟨(fetchLoop transport url mr (a + 1) (bo * 2)).result,
       (fetchLoop transport url mr (a + 1) (bo * 2)).calls + 1,
       bo :: (fetchLoop transport url mr (a + 1) (bo * 2)).sleeps⟩ := by
  rw [fetchLoop.eq_def, hout]
  simp [hs, ht, ha]

theorem fetchLoop_networkRaise (transport : String → Nat → TransportOutcome) (url : String)
    (mr a : Nat) (bo : Rat)
    (hout : transport url a = .connectionError ∨ transport url a = .timeout)
    (ha : mr < a) :
    fetchLoop transport url mr a bo =
      ⟨.error (.transientAPIError (networkErrorMessage mr) (some (transport url a))),
       1, []⟩ := by
  rcases hout with hout | hout <;>
    · rw [fetchLoop.eq_def]
      rw [hout]
      simp [ha]

theorem fetchLoop_networkRetry (transport : String → Nat → TransportOutcome) (url : String)
    (mr a : Nat) (bo : Rat)
    (hout : transport url a = .connectionError ∨ transport url a = .timeout)
    (ha : ¬ mr < a) :
    fetchLoop transport url mr a bo =
      ⟨(fetchLoop transport url mr (a + 1) (bo * 2)).result,
       (fetchLoop transport url mr (a + 1) (bo * 2)).calls + 1,
       bo :: (fetchLoop transport url mr (a + 1) (bo * 2)).sleeps⟩ := by
  rcases hout with hout | hout <;>
    · rw [fetchLoop.eq_def]
      rw [hout]
      simp [ha]

theorem fetchLoop_httpErrorTransientRaise (transport : String → Nat → TransportOutcome)
    (url : String) (mr a : Nat) (bo : Rat) (s : Nat)
    (hout : transport url a = .httpError (some s))
    (ht : _is_transient_status s = true) (ha : mr < a) :
    fetchLoop transport url mr a bo =
      ⟨.error (.transientAPIError (transientHTTPMessage mr)
        (some (.httpError (some s)))), 1, []⟩ := by
  rw [fetchLoop.eq_def, hout]
  simp [ht, ha]

theorem fetchLoop_httpErrorTransientRetry (transport : String → Nat → TransportOutcome)
    (url : String) (mr a : Nat) (bo : Rat) (s : Nat)
    (hout : transport url a = .httpError (some s))
    (ht : _is_transient_status s = true) (ha : ¬ mr < a) :
    fetchLoop transport url mr a bo =
      ⟨(fetchLoop transport url mr (a + 1) (bo * 2)).result,
       (fetchLoop transport url mr (a + 1) (bo * 2)).calls + 1,
       bo :: (fetchLoop transport url mr (a + 1) (bo * 2)).sleeps⟩ := by
  rw [fetchLoop.eq_def, hout]
  simp [ht, ha]

theorem fetchLoop_httpErrorPermanent (transport : String → Nat → TransportOutcome)
    (url : String) (mr a : Nat) (bo : Rat) (status? : Option Nat)
    (hout : transport url a = .httpError status?)
    (ht : ∀ s, status? = some s → _is_transient_status s = false) :
    fetchLoop transport url mr a bo =
      ⟨.error (.permanentAPIError "Permanent HTTP error from user service"), 1, []⟩ := by
  rw [fetchLoop.eq_def, hout]
  cases status? with
  | none => simp
  | some s => simp [ht s rfl]

theorem fetchLoop_requestExceptionRaise (transport : String → Nat → TransportOutcome)
    (url : String) (mr a : Nat) (bo : Rat)
    (hout : transport url a = .requestException) (ha : mr < a) :
    fetchLoop transport url mr a bo =
      ⟨.error (.transientAPIError (requestErrorMessage mr) (some .requestException)),
       1, []⟩ := by
  rw [fetchLoop.eq_def, hout]
  simp [ha]

theorem fetchLoop_requestExceptionRetry (transport : String → Nat → TransportOutcome)
    (url : String) (mr a : Nat) (bo : Rat)
    (hout : transport url a = .requestException) (ha : ¬ mr < a) :
    fetchLoop transport url mr a bo =
      ⟨(fetchLoop transport url mr (a + 1) (bo * 2)).result,
       (fetchLoop transport url mr (a + 1) (bo * 2)).calls + 1,
       bo :: (fetchLoop transport url mr (a + 1) (bo * 2)).sleeps⟩ := by
  rw [fetchLoop.eq_def, hout]
  simp [ha]

/-! ### The backoff schedule and the behaviour over runs of transient attempts. -/

theorem expBackoffs_zero (bo : Rat) : expBackoffs bo 0 = [] := rfl

theorem expBackoffs_succ (bo : Rat) (n : Nat) :
    expBackoffs bo (n + 1) = bo :: expBackoffs (bo * 2) n := by
  unfold expBackoffs
  rw [List.range_succ_eq_map, List.map_cons, List.map_map]
  simp only [pow_zero, mul_one, List.cons.injEq, true_and]
  apply List.map_congr_left
  intro k _
  simp only [Function.comp_apply, pow_succ]
  ring

theorem expBackoffs_length (bo : Rat) (n : Nat) : (expBackoffs bo n).length = n := by
  simp [expBackoffs]

/-- Running the loop across `n` consecutive attempts that all yield a
transient (non-2xx) status, none of them past the retry budget, performs
`n` transport calls and the first `n` exponential-backoff sleeps, and then
continues from attempt `a + n` with the backoff doubled `n` times. -/
theorem fetchLoop_transientRun (transport : String → Nat → TransportOutcome)
    (url : String) (mr : Nat) :
    ∀ (n a : Nat) (bo : Rat), a + n ≤ mr + 1 →
    (∀ k, a ≤ k → k < a + n →
      ∃ s b, transport url k = .response s b ∧
        ¬ (200 ≤ s ∧ s < 300) ∧ _is_transient_status s = true) →
    fetchLoop transport url mr a bo =
      ⟨(fetchLoop transport url mr (a + n) (bo * 2 ^ n)).result,
       (fetchLoop transport url mr (a + n) (bo * 2 ^ n)).calls + n,
       expBackoffs bo n ++ (fetchLoop transport url mr (a + n) (bo * 2 ^ n)).sleeps⟩ := by
  intro n
  induction n with
  | zero =>
    intro a bo _ _
    simp [expBackoffs]
  | succ n ih =>
    intro a bo hle hk
    obtain ⟨s, b, hout, hs, ht⟩ := hk a (le_refl a) (by omega)
    have ha : ¬ mr < a := by omega
    rw [fetchLoop_transientRetry transport url mr a bo s b hout hs ht ha]
    rw [ih (a + 1) (bo * 2) (by omega)
      (fun k hk1 hk2 => hk k (by omega) (by omega))]
    have hidx : a + 1 + n = a + (n + 1) := by omega
    have hbo : bo * 2 * 2 ^ n = bo * 2 ^ (n + 1) := by ring
    rw [hidx, hbo, expBackoffs_succ]
    rfl

/-- Loop-level version of claim C1: `mr` transient-503 attempts followed by a
200 response carrying a JSON object. -/
theorem fetchLoop_fiveOhThree_then_ok (transport : String → Nat → TransportOutcome)
    (url : String) (mr : Nat) (ib : Rat) (d : Json)
    (hfail : ∀ k, 1 ≤ k → k ≤ mr → ∃ b, transport url k = .response 503 b)
    (hsucc : transport url (mr + 1) = .response 200 (some d))
    (hd : d.isDict = true) :
    fetchLoop transport url mr 1 ib = ⟨.ok d, mr + 1, expBackoffs ib mr⟩ := by
  rw [fetchLoop_transientRun transport url mr mr 1 ib (by omega)
    (fun k h1 h2 => by
      obtain ⟨b, hb⟩ := hfail k h1 (by omega)
      exact ⟨503, b, hb, by decide, by decide⟩)]
  rw [fetchLoop_ok transport url mr (1 + mr) (ib * 2 ^ mr) 200 d
    (by rw [Nat.add_comm 1 mr]; exact hsucc) (by omega) hd]
  simp [Nat.add_comm]

/-- Loop-level version of claim C2: every attempt yields status 503. -/
theorem fetchLoop_fiveOhThree_always (transport : String → Nat → TransportOutcome)
    (url : String) (mr : Nat) (ib : Rat)
    (hfail : ∀ k, 1 ≤ k → k ≤ mr + 1 → ∃ b, transport url k = .response 503 b) :
    fetchLoop transport url mr 1 ib =
      ⟨.error (.transientAPIError (transientHTTPMessage mr) none), mr + 1,
       expBackoffs ib mr⟩ := by
  rw [fetchLoop_transientRun transport url mr mr 1 ib (by omega)
    (fun k h1 h2 => by
      obtain ⟨b, hb⟩ := hfail k h1 (by omega)
      exact ⟨503, b, hb, by decide, by decide⟩)]
  obtain ⟨b, hb⟩ := hfail (1 + mr) (by omega) (by omega)
  rw [fetchLoop_transientRaise transport url mr (1 + mr) (ib * 2 ^ mr) 503 b hb
    (by decide) (by decide) (by omega)]
  simp [Nat.add_comm]

/-! ### The claims. -/

/-- Claim C1: for every `maxRetries ≥ 1` and a transport that returns status
503 on each of the first `maxRetries` calls and then status 200 with a body
that decodes to a JSON object, `fetch_user_details` returns that object, the
transport is called exactly `maxRetries + 1` times, and the sleeps performed
between attempts are, in order, `initialBackoff, 2·initialBackoff,
4·initialBackoff, …` (the `k`-th sleep lasting `initialBackoff · 2^(k-1)`,
which is `expBackoffs initial_backoff maxRetries`). -/
theorem C1_transient_then_success (user_id : String)
    (transport : String → Nat → TransportOutcome) (base_url : String)
    (max_retries : Nat) (initial_backoff : Rat) (d : Json)
    (huid : pyStrip user_id ≠ "") (_hmr : 1 ≤ max_retries)
    (hfail : ∀ u k, 1 ≤ k → k ≤ max_retries → ∃ b, transport u k = .response 503 b)
    (hsucc : ∀ u, transport u (max_retries + 1) = .response 200 (some d))
    (hd : d.isDict = true) :
    fetch_user_details user_id transport base_url max_retries initial_backoff =
      ⟨.ok d, max_retries + 1, expBackoffs initial_backoff max_retries⟩ := by
  unfold fetch_user_details
  rw [if_neg huid]
  exact fetchLoop_fiveOhThree_then_ok transport _ max_retries initial_backoff d
    (fun k h1 h2 => hfail _ k h1 h2) (hsucc _) hd

/-- Witness for C1 at `max_retries = 1`. -/
theorem C1_transient_then_success_witness :
    fetch_user_details "42"
      (fun _ k => if k = 1 then .response 503 none
        else .response 200 (some (.obj [("id", .str "42")])))
      "https://api.example.com" 1 (1 / 2) =
      ⟨.ok (.obj [("id", .str "42")]), 2, expBackoffs (1 / 2) 1⟩ :=
  C1_transient_then_success "42" _ "https://api.example.com" 1 (1 / 2)
    (.obj [("id", .str "42")]) (by decide) (by decide)
    (fun u k h1 h2 => ⟨none, by
      have hk : k = 1 := by omega
      subst hk
      rfl⟩)
    (fun u => rfl) rfl

/-- Claim C2: for every `maxRetries ≥ 0` and a transport that returns status
503 on every call, `fetch_user_details` raises `TransientAPIError`, and the
total number of transport calls made before raising is exactly
`maxRetries + 1`. -/
theorem C2_transient_exhausted (user_id : String)
    (transport : String → Nat → TransportOutcome) (base_url : String)
    (max_retries : Nat) (initial_backoff : Rat)
    (huid : pyStrip user_id ≠ "")
    (hfail : ∀ u k, ∃ b, transport u k = .response 503 b) :
    fetch_user_details user_id transport base_url max_retries initial_backoff =
      ⟨.error (.transientAPIError (transientHTTPMessage max_retries) none),
       max_retries + 1, expBackoffs initial_backoff max_retries⟩ := by
  unfold fetch_user_details
  rw [if_neg huid]
  exact fetchLoop_fiveOhThree_always transport _ max_retries initial_backoff
    (fun k _ _ => hfail _ k)

/-- Witness for C2 at `max_retries = 2`. -/
theorem C2_transient_exhausted_witness :
    fetch_user_details "42" (fun _ _ => .response 503 none)
      "https://api.example.com" 2 (1 / 2) =
      ⟨.error (.transientAPIError (transientHTTPMessage 2) none), 3,
       expBackoffs (1 / 2) 2⟩ :=
  C2_transient_exhausted "42" _ "https://api.example.com" 2 (1 / 2)
    (by decide) (fun u k => ⟨none, rfl⟩)

/-- Claim C3: a non-2xx status is classified transient iff it lies in the
fixed set `{408, 429, 500, 502, 503, 504}`; and for every status outside
`[200, 300)` not in this set, the loop raises `PermanentAPIError` naming that
status code immediately at the attempt that returns it: one transport call,
no retry, no backoff sleep. -/
theorem C3_permanent_status (s : Nat) :
    (_is_transient_status s = true ↔
      (s = 408 ∨ s = 429 ∨ s = 500 ∨ s = 502 ∨ s = 503 ∨ s = 504)) ∧
    (∀ (transport : String → Nat → TransportOutcome) (url : String)
      (mr a : Nat) (bo : Rat) (b : Option Json),
      ¬ (200 ≤ s ∧ s < 300) → _is_transient_status s = false →
      transport url a = .response s b →
      fetchLoop transport url mr a bo =
        ⟨.error (.permanentAPIError (permanentHTTPMessage s)), 1, []⟩) := by
  constructor
  · simp [_is_transient_status]
  · intro transport url mr a bo b hs ht hout
    exact fetchLoop_permanentStatus transport url mr a bo s b hout hs ht

/-- Witness for C3 at status 404, first attempt, three retries remaining. -/
theorem C3_permanent_status_witness :
    fetchLoop (fun _ _ => .response 404 none) "https://api.example.com/users/42"
      3 1 (1 / 2) =
      ⟨.error (.permanentAPIError (permanentHTTPMessage 404)), 1, []⟩ :=
  (C3_permanent_status 404).2 _ "https://api.example.com/users/42" 3 1 (1 / 2)
    none (by decide) (by decide) rfl

/-- Claim C4: every network-level transport error (connection failure or
timeout) is classified transient unconditionally: while the attempt number
does not exceed `max_retries` the loop sleeps the current backoff and
retries with doubled backoff; once the attempt number exceeds `max_retries`
it raises `TransientAPIError` wrapping the underlying network error as its
cause. -/
theorem C4_network_error_transient (transport : String → Nat → TransportOutcome)
    (url : String) (mr a : Nat) (bo : Rat)
    (hout : transport url a = .connectionError ∨ transport url a = .timeout) :
    (a ≤ mr → fetchLoop transport url mr a bo =
      ⟨(fetchLoop transport url mr (a + 1) (bo * 2)).result,
       (fetchLoop transport url mr (a + 1) (bo * 2)).calls + 1,
       bo :: (fetchLoop transport url mr (a + 1) (bo * 2)).sleeps⟩) ∧
    (mr < a → fetchLoop transport url mr a bo =
      ⟨.error (.transientAPIError (networkErrorMessage mr) (some (transport url a))),
       1, []⟩) := by
  constructor
  · intro h
    exact fetchLoop_networkRetry transport url mr a bo hout (by omega)
  · intro h
    exact fetchLoop_networkRaise transport url mr a bo hout h

/-- Witness for C4: a transport that always fails at the connection level,
with the retry budget exhausted. -/
theorem C4_network_error_transient_witness :
    fetchLoop (fun _ _ => .connectionError) "https://api.example.com/users/42" 0 1 (1 / 2) =
      ⟨.error (.transientAPIError (networkErrorMessage 0) (some .connectionError)),
       1, []⟩ :=
  (C4_network_error_transient _ "https://api.example.com/users/42" 0 1 (1 / 2)
    (Or.inl rfl)).2 (by decide)

/-- The document `{"id": "42", "name": "Ada"}` from the test properties of the spec
property. -/
def adaDocument : Json := .obj [("id", .str "42"), ("name", .str "Ada")]

/-- Claim C5: for a transport that returns status 200 with a body decoding to
`{"id": "42", "name": "Ada"}` on the first call, fetch returns exactly that
object after a single attempt, with no sleeps and no further transport
calls. -/
theorem C5_success_first_attempt (transport : String → Nat → TransportOutcome)
    (base_url : String) (max_retries : Nat) (initial_backoff : Rat)
    (hsucc : transport (base_url ++ "/users/" ++ "42") 1 =
      .response 200 (some adaDocument)) :
    fetch_user_details "42" transport base_url max_retries initial_backoff =
      ⟨.ok adaDocument, 1, []⟩ := by
  unfold fetch_user_details
  rw [if_neg (by decide : ¬ pyStrip "42" = "")]
  dsimp only
  rw [show pyStrip "42" = "42" from by decide]
  exact fetchLoop_ok transport _ max_retries 1 initial_backoff 200 adaDocument
    hsucc (by omega) rfl

/-- Witness for C5. -/
theorem C5_success_first_attempt_witness :
    fetch_user_details "42" (fun _ _ => .response 200 (some adaDocument))
      "https://api.example.com" 3 (1 / 2) = ⟨.ok adaDocument, 1, []⟩ :=
  C5_success_first_attempt _ "https://api.example.com" 3 (1 / 2) rfl

/-- Claim C6: for every attempt whose status is in `[200, 300)` but whose
body either fails to decode as JSON or decodes to a value that is not a JSON
object, the loop raises `PermanentAPIError` immediately, with no retry and no
backoff sleep, regardless of how many retries remain. -/
theorem C6_malformed_success_body (transport : String → Nat → TransportOutcome)
    (url : String) (mr a : Nat) (bo : Rat) (s : Nat)
    (hs : 200 ≤ s ∧ s < 300) :
    (transport url a = .response s none →
      fetchLoop transport url mr a bo =
        ⟨.error (.permanentAPIError "Invalid JSON received from user service"),
         1, []⟩) ∧
    (∀ d : Json, d.isDict = false → transport url a = .response s (some d) →
      fetchLoop transport url mr a bo =
        ⟨.error (.permanentAPIError "Unexpected JSON structure from user service"),
         1, []⟩) := by
  constructor
  · intro hout
    exact fetchLoop_badJson transport url mr a bo s hout hs
  · intro d hd hout
    exact fetchLoop_notDict transport url mr a bo s d hout hs hd

/-- Witness for C6: a 200 response decoding to a JSON array, with many
retries remaining. -/
theorem C6_malformed_success_body_witness :
    fetchLoop (fun _ _ => .response 200 (some (.arr [])))
      "https://api.example.com/users/42" 5 1 (1 / 2) =
      ⟨.error (.permanentAPIError "Unexpected JSON structure from user service"),
       1, []⟩ :=
  (C6_malformed_success_body _ "https://api.example.com/users/42" 5 1 (1 / 2)
    200 (by decide)).2 (.arr []) rfl rfl

/-- Claim C7: for every identifier that is empty or consists only of
whitespace, fetch fails immediately with `ValueError`: zero transport calls
and zero sleeps. -/
theorem C7_invalid_identifier (user_id : String)
    (transport : String → Nat → TransportOutcome) (base_url : String)
    (max_retries : Nat) (initial_backoff : Rat)
    (h : pyStrip user_id = "") :
    fetch_user_details user_id transport base_url max_retries initial_backoff =
      ⟨.error (.valueError "user_id must be a non-empty string"), 0, []⟩ := by
  unfold fetch_user_details
  rw [if_pos h]

/-- Witness for C7 on a whitespace-only identifier. -/
theorem C7_invalid_identifier_witness :
    fetch_user_details "   " (fun _ _ => .response 200 (some (.obj [])))
      "https://api.example.com" 3 (1 / 2) =
      ⟨.error (.valueError "user_id must be a non-empty string"), 0, []⟩ :=
  C7_invalid_identifier "   " _ "https://api.example.com" 3 (1 / 2) (by decide)

/-- Claim C10: for every `user_id` that is non-empty after stripping, fetch
strips leading and trailing whitespace from `user_id` before building the
request URL, which is exactly `base_url ++ "/users/" ++ pyStrip user_id`;
hence fetching `"  42  "` and fetching `"42"` behave identically (same URL,
same trace). -/
theorem C10_url_from_stripped_id (user_id : String)
    (transport : String → Nat → TransportOutcome) (base_url : String)
    (max_retries : Nat) (initial_backoff : Rat)
    (h : pyStrip user_id ≠ "") :
    (fetch_user_details user_id transport base_url max_retries initial_backoff =
      fetchLoop transport (base_url ++ "/users/" ++ pyStrip user_id)
        max_retries 1 initial_backoff) ∧
    fetch_user_details "  42  " transport base_url max_retries initial_backoff =
      fetch_user_details "42" transport base_url max_retries initial_backoff := by
  constructor
  · unfold fetch_user_details
    rw [if_neg h]
  · unfold fetch_user_details
    rw [if_neg (by decide : ¬ pyStrip "  42  " = ""),
      if_neg (by decide : ¬ pyStrip "42" = "")]
    dsimp only
    rw [show pyStrip "  42  " = "42" from by decide,
      show pyStrip "42" = "42" from by decide]

/-- Witness for C10 on the identifier `"  42  "`. -/
theorem C10_url_from_stripped_id_witness :
    fetch_user_details "  42  " (fun _ _ => .connectionError)
      "https://api.example.com" 3 (1 / 2) =
      fetchLoop (fun _ _ => .connectionError)
        ("https://api.example.com" ++ "/users/" ++ pyStrip "  42  ") 3 1 (1 / 2) :=
  (C10_url_from_stripped_id "  42  " _ "https://api.example.com" 3 (1 / 2)
    (by decide)).1

/-- Every run of the loop that starts within its budget performs `m + 1`
transport calls for some `m` bounded by the remaining budget, and its sleeps
are exactly the first `m` exponential-backoff durations. -/
theorem fetchLoop_shape (transport : String → Nat → TransportOutcome)
    (url : String) (mr : Nat) :
    ∀ (n a : Nat) (bo : Rat), a + n = mr + 1 →
    ∃ m r, m ≤ n ∧ fetchLoop transport url mr a bo = ⟨r, m + 1, expBackoffs bo m⟩ := by
  intro n
  induction n with
  | zero =>
    intro a bo ha
    have hlt : mr < a := by omega
    cases hout : transport url a with
    | response s b =>
      by_cases hs : 200 ≤ s ∧ s < 300
      · cases b with
        | none =>
          exact ⟨0, _, by omega, fetchLoop_badJson transport url mr a bo s hout hs⟩
        | some d =>
          by_cases hd : d.isDict = true
          · exact ⟨0, _, by omega, fetchLoop_ok transport url mr a bo s d hout hs hd⟩
          · exact ⟨0, _, by omega, fetchLoop_notDict transport url mr a bo s d hout hs
              (by simpa using hd)⟩
      · by_cases ht : _is_transient_status s = true
        · exact ⟨0, _, by omega,
            fetchLoop_transientRaise transport url mr a bo s b hout hs ht hlt⟩
        · exact ⟨0, _, by omega, fetchLoop_permanentStatus transport url mr a bo s b
            hout hs (by simpa using ht)⟩
    | connectionError =>
      exact ⟨0, _, by omega, fetchLoop_networkRaise transport url mr a bo (Or.inl hout) hlt⟩
    | timeout =>
      exact ⟨0, _, by omega, fetchLoop_networkRaise transport url mr a bo (Or.inr hout) hlt⟩
    | httpError status? =>
      cases status? with
      | none =>
        exact ⟨0, _, by omega, fetchLoop_httpErrorPermanent transport url mr a bo none
          hout (by intro s hsome; cases hsome)⟩
      | some s =>
        by_cases ht : _is_transient_status s = true
        · exact ⟨0, _, by omega,
            fetchLoop_httpErrorTransientRaise transport url mr a bo s hout ht hlt⟩
        · exact ⟨0, _, by omega, fetchLoop_httpErrorPermanent transport url mr a bo
            (some s) hout (by intro s' hsome; cases hsome; simpa using ht)⟩
    | requestException =>
      exact ⟨0, _, by omega, fetchLoop_requestExceptionRaise transport url mr a bo hout hlt⟩
  | succ n ih =>
    intro a bo ha
    have hle : ¬ mr < a := by omega
    have retryCase :
        fetchLoop transport url mr a bo =
          ⟨(fetchLoop transport url mr (a + 1) (bo * 2)).result,
           (fetchLoop transport url mr (a + 1) (bo * 2)).calls + 1,
           bo :: (fetchLoop transport url mr (a + 1) (bo * 2)).sleeps⟩ →
        ∃ m r, m ≤ n + 1 ∧
          fetchLoop transport url mr a bo = ⟨r, m + 1, expBackoffs bo m⟩ := by
      intro hstep
      obtain ⟨m, r, hm, hrec⟩ := ih (a + 1) (bo * 2) (by omega)
      refine ⟨m + 1, r, by omega, ?_⟩
      rw [hstep, hrec, expBackoffs_succ]
    cases hout : transport url a with
    | response s b =>
      by_cases hs : 200 ≤ s ∧ s < 300
      · cases b with
        | none =>
          exact ⟨0, _, by omega, fetchLoop_badJson transport url mr a bo s hout hs⟩
        | some d =>
          by_cases hd : d.isDict = true
          · exact ⟨0, _, by omega, fetchLoop_ok transport url mr a bo s d hout hs hd⟩
          · exact ⟨0, _, by omega, fetchLoop_notDict transport url mr a bo s d hout hs
              (by simpa using hd)⟩
      · by_cases ht : _is_transient_status s = true
        · exact retryCase
            (fetchLoop_transientRetry transport url mr a bo s b hout hs ht hle)
        · exact ⟨0, _, by omega, fetchLoop_permanentStatus transport url mr a bo s b
            hout hs (by simpa using ht)⟩
    | connectionError =>
      exact retryCase (fetchLoop_networkRetry transport url mr a bo (Or.inl hout) hle)
    | timeout =>
      exact retryCase (fetchLoop_networkRetry transport url mr a bo (Or.inr hout) hle)
    | httpError status? =>
      cases status? with
      | none =>
        exact ⟨0, _, by omega, fetchLoop_httpErrorPermanent transport url mr a bo none
          hout (by intro s hsome; cases hsome)⟩
      | some s =>
        by_cases ht : _is_transient_status s = true
        · exact retryCase
            (fetchLoop_httpErrorTransientRetry transport url mr a bo s hout ht hle)
        · exact ⟨0, _, by omega, fetchLoop_httpErrorPermanent transport url mr a bo
            (some s) hout (by intro s' hsome; cases hsome; simpa using ht)⟩
    | requestException =>
      exact retryCase (fetchLoop_requestExceptionRetry transport url mr a bo hout hle)

/-- Claim C8: for every transport behaviour and every `max_retries ≥ 0` the
retry loop, entered at attempt 1 as `fetch_user_details` enters it, makes at
most `max_retries + 1` transport calls (in particular it terminates: the
embedding is a total function), performs exactly one sleep per retry
iteration (one fewer sleep than transport calls, each iteration advancing
the attempt number by one), and its successive sleep durations double
exactly: they are the first sleeps of the schedule `expBackoffs`. -/
theorem C8_loop_bounded_doubling (transport : String → Nat → TransportOutcome)
    (url : String) (max_retries : Nat) (initial_backoff : Rat) :
    (fetchLoop transport url max_retries 1 initial_backoff).calls ≤ max_retries + 1 ∧
    (fetchLoop transport url max_retries 1 initial_backoff).calls =
      (fetchLoop transport url max_retries 1 initial_backoff).sleeps.length + 1 ∧
    (fetchLoop transport url max_retries 1 initial_backoff).sleeps =
      expBackoffs initial_backoff
        (fetchLoop transport url max_retries 1 initial_backoff).sleeps.length := by
  obtain ⟨m, r, hm, h⟩ :=
    fetchLoop_shape transport url max_retries max_retries 1 initial_backoff (by omega)
  rw [h]
  refine ⟨by simpa using Nat.add_le_add_right hm 1, ?_, ?_⟩
  · simp [expBackoffs_length]
  · simp [expBackoffs_length]

/-- Any `TransientAPIError` produced by the loop is fully determined by the
retry budget and the kind of the outcome of the last attempt performed:
a transient HTTP status yields the "Transient HTTP error" message with no
cause, a connection error or timeout yields the "Network error" message with
the network error as cause, a transient `HTTPError` yields the "Transient
HTTP error" message with the `HTTPError` as cause, and any other
`RequestException` yields the "Request error" message with it as cause. -/
theorem fetchLoop_transient_classified (transport : String → Nat → TransportOutcome)
    (url : String) (mr : Nat) :
    ∀ (n a : Nat) (bo : Rat) (m : String) (c : Option TransportOutcome),
    a + n = mr + 1 →
    (fetchLoop transport url mr a bo).result = .error (.transientAPIError m c) →
    (∃ s b, transport url (a + (fetchLoop transport url mr a bo).calls - 1) =
        .response s b ∧ _is_transient_status s = true ∧
        m = transientHTTPMessage mr ∧ c = none) ∨
    (transport url (a + (fetchLoop transport url mr a bo).calls - 1) =
        .connectionError ∧ m = networkErrorMessage mr ∧ c = some .connectionError) ∨
    (transport url (a + (fetchLoop transport url mr a bo).calls - 1) =
        .timeout ∧ m = networkErrorMessage mr ∧ c = some .timeout) ∨
    (∃ s, transport url (a + (fetchLoop transport url mr a bo).calls - 1) =
        .httpError (some s) ∧ _is_transient_status s = true ∧
        m = transientHTTPMessage mr ∧ c = some (.httpError (some s))) ∨
    (transport url (a + (fetchLoop transport url mr a bo).calls - 1) =
        .requestException ∧ m = requestErrorMessage mr ∧ c = some .requestException) := by
  intro n
  induction n with
  | zero =>
    intro a bo m c ha hres
    have hlt : mr < a := by omega
    cases hout : transport url a with
    | response s b =>
      by_cases hs : 200 ≤ s ∧ s < 300
      · cases b with
        | none =>
          rw [fetchLoop_badJson transport url mr a bo s hout hs] at hres
          simp at hres
        | some d =>
          by_cases hd : d.isDict = true
          · rw [fetchLoop_ok transport url mr a bo s d hout hs hd] at hres
            simp at hres
          · rw [fetchLoop_notDict transport url mr a bo s d hout hs
              (by simpa using hd)] at hres
            simp at hres
      · by_cases ht : _is_transient_status s = true
        · rw [fetchLoop_transientRaise transport url mr a bo s b hout hs ht hlt]
            at hres ⊢
          simp only [Except.error.injEq, APIError.transientAPIError.injEq] at hres
          exact Or.inl ⟨s, b, by simpa using hout, ht, hres.1.symm, hres.2.symm⟩
        · rw [fetchLoop_permanentStatus transport url mr a bo s b hout hs
            (by simpa using ht)] at hres
          simp at hres
    | connectionError =>
      rw [fetchLoop_networkRaise transport url mr a bo (Or.inl hout) hlt] at hres ⊢
      rw [hout] at hres
      simp only [Except.error.injEq, APIError.transientAPIError.injEq] at hres
      exact Or.inr (Or.inl ⟨by simpa using hout, hres.1.symm, hres.2.symm⟩)
    | timeout =>
      rw [fetchLoop_networkRaise transport url mr a bo (Or.inr hout) hlt] at hres ⊢
      rw [hout] at hres
      simp only [Except.error.injEq, APIError.transientAPIError.injEq] at hres
      exact Or.inr (Or.inr (Or.inl ⟨by simpa using hout, hres.1.symm, hres.2.symm⟩))
    | httpError status? =>
      cases status? with
      | none =>
        rw [fetchLoop_httpErrorPermanent transport url mr a bo none hout
          (by intro s hsome; cases hsome)] at hres
        simp at hres
      | some s =>
        by_cases ht : _is_transient_status s = true
        · rw [fetchLoop_httpErrorTransientRaise transport url mr a bo s hout ht hlt]
            at hres ⊢
          simp only [Except.error.injEq, APIError.transientAPIError.injEq] at hres
          exact Or.inr (Or.inr (Or.inr (Or.inl
            ⟨s, by simpa using hout, ht, hres.1.symm, hres.2.symm⟩)))
        · rw [fetchLoop_httpErrorPermanent transport url mr a bo (some s) hout
            (by intro s' hsome; cases hsome; simpa using ht)] at hres
          simp at hres
    | requestException =>
      rw [fetchLoop_requestExceptionRaise transport url mr a bo hout hlt] at hres ⊢
      simp only [Except.error.injEq, APIError.transientAPIError.injEq] at hres
      exact Or.inr (Or.inr (Or.inr (Or.inr
        ⟨by simpa using hout, hres.1.symm, hres.2.symm⟩)))
  | succ n ih =>
    intro a bo m c ha hres
    have hle : ¬ mr < a := by omega
    have retryCase :
        fetchLoop transport url mr a bo =
          ⟨(fetchLoop transport url mr (a + 1) (bo * 2)).result,
           (fetchLoop transport url mr (a + 1) (bo * 2)).calls + 1,
           bo :: (fetchLoop transport url mr (a + 1) (bo * 2)).sleeps⟩ →
        (∃ s b, transport url (a + (fetchLoop transport url mr a bo).calls - 1) =
            .response s b ∧ _is_transient_status s = true ∧
            m = transientHTTPMessage mr ∧ c = none) ∨
        (transport url (a + (fetchLoop transport url mr a bo).calls - 1) =
            .connectionError ∧ m = networkErrorMessage mr ∧ c = some .connectionError) ∨
        (transport url (a + (fetchLoop transport url mr a bo).calls - 1) =
            .timeout ∧ m = networkErrorMessage mr ∧ c = some .timeout) ∨
        (∃ s, transport url (a + (fetchLoop transport url mr a bo).calls - 1) =
            .httpError (some s) ∧ _is_transient_status s = true ∧
            m = transientHTTPMessage mr ∧ c = some (.httpError (some s))) ∨
        (transport url (a + (fetchLoop transport url mr a bo).calls - 1) =
            .requestException ∧ m = requestErrorMessage mr ∧
            c = some .requestException) := by
      intro hstep
      rw [hstep] at hres ⊢
      dsimp only at hres ⊢
      have hidx : a + ((fetchLoop transport url mr (a + 1) (bo * 2)).calls + 1) - 1 =
          (a + 1) + (fetchLoop transport url mr (a + 1) (bo * 2)).calls - 1 := by
        omega
      rw [hidx]
      exact ih (a + 1) (bo * 2) m c (by omega) hres
    cases hout : transport url a with
    | response s b =>
      by_cases hs : 200 ≤ s ∧ s < 300
      · cases b with
        | none =>
          rw [fetchLoop_badJson transport url mr a bo s hout hs] at hres
          simp at hres
        | some d =>
          by_cases hd : d.isDict = true
          · rw [fetchLoop_ok transport url mr a bo s d hout hs hd] at hres
            simp at hres
          · rw [fetchLoop_notDict transport url mr a bo s d hout hs
              (by simpa using hd)] at hres
            simp at hres
      · by_cases ht : _is_transient_status s = true
        · exact retryCase
            (fetchLoop_transientRetry transport url mr a bo s b hout hs ht hle)
        · rw [fetchLoop_permanentStatus transport url mr a bo s b hout hs
            (by simpa using ht)] at hres
          simp at hres
    | connectionError =>
      exact retryCase (fetchLoop_networkRetry transport url mr a bo (Or.inl hout) hle)
    | timeout =>
      exact retryCase (fetchLoop_networkRetry transport url mr a bo (Or.inr hout) hle)
    | httpError status? =>
      cases status? with
      | none =>
        rw [fetchLoop_httpErrorPermanent transport url mr a bo none hout
          (by intro s hsome; cases hsome)] at hres
        simp at hres
      | some s =>
        by_cases ht : _is_transient_status s = true
        · exact retryCase
            (fetchLoop_httpErrorTransientRetry transport url mr a bo s hout ht hle)
        · rw [fetchLoop_httpErrorPermanent transport url mr a bo (some s) hout
            (by intro s' hsome; cases hsome; simpa using ht)] at hres
          simp at hres
    | requestException =>
      exact retryCase (fetchLoop_requestExceptionRetry transport url mr a bo hout hle)

/-- Counterexample to claim C9 as stated: the `TransientAPIError` raised
after exhausting retries does not carry the specific transient HTTP status
code that was last observed.  Two transports whose only difference is the
transient status they keep returning (503 versus 500) produce bytewise
identical traces, so the raised error cannot distinguish the two statuses. -/
theorem C9_status_code_not_carried_counterexample :
    (fetchLoop (fun _ _ => .response 503 none) "https://api.example.com/users/42"
        0 1 (1 / 2) =
      fetchLoop (fun _ _ => .response 500 none) "https://api.example.com/users/42"
        0 1 (1 / 2)) ∧
    (fetchLoop (fun _ _ => .response 503 none) "https://api.example.com/users/42"
        0 1 (1 / 2)).result =
      .error (.transientAPIError (transientHTTPMessage 0) none) := by
  constructor
  · rw [fetchLoop_transientRaise _ "https://api.example.com/users/42" 0 1 (1 / 2)
        503 none rfl (by decide) (by decide) (by decide),
      fetchLoop_transientRaise _ "https://api.example.com/users/42" 0 1 (1 / 2)
        500 none rfl (by decide) (by decide) (by decide)]
  · rw [fetchLoop_transientRaise _ "https://api.example.com/users/42" 0 1 (1 / 2)
        503 none rfl (by decide) (by decide) (by decide)]

/-- Claim C9 (amended): every `TransientAPIError` raised by the loop carries
the last-seen classification kind — distinguishing, via its message and
attached cause, a network error from a transient HTTP status (and from a
transient `HTTPError` and a generic `RequestException`) — together with the
configured `max_retries` count; it does not carry the specific transient
HTTP status code that was last observed. -/
theorem C9_transient_error_payload (transport : String → Nat → TransportOutcome)
    (url : String) (max_retries : Nat) (initial_backoff : Rat)
    (m : String) (c : Option TransportOutcome)
    (hres : (fetchLoop transport url max_retries 1 initial_backoff).result =
      .error (.transientAPIError m c)) :
    (∃ s b, transport url
        (1 + (fetchLoop transport url max_retries 1 initial_backoff).calls - 1) =
        .response s b ∧ _is_transient_status s = true ∧
        m = transientHTTPMessage max_retries ∧ c = none) ∨
    (transport url
        (1 + (fetchLoop transport url max_retries 1 initial_backoff).calls - 1) =
        .connectionError ∧ m = networkErrorMessage max_retries ∧
        c = some .connectionError) ∨
    (transport url
        (1 + (fetchLoop transport url max_retries 1 initial_backoff).calls - 1) =
        .timeout ∧ m = networkErrorMessage max_retries ∧ c = some .timeout) ∨
    (∃ s, transport url
        (1 + (fetchLoop transport url max_retries 1 initial_backoff).calls - 1) =
        .httpError (some s) ∧ _is_transient_status s = true ∧
        m = transientHTTPMessage max_retries ∧ c = some (.httpError (some s))) ∨
    (transport url
        (1 + (fetchLoop transport url max_retries 1 initial_backoff).calls - 1) =
        .requestException ∧ m = requestErrorMessage max_retries ∧
        c = some .requestException) :=
  fetchLoop_transient_classified transport url max_retries max_retries 1
    initial_backoff m c (by omega) hres

/-- A transport that always fails at the connection level; used to witness
claim C9. -/
def alwaysConnectionError : String → Nat → TransportOutcome :=
  fun _ _ => .connectionError

/-- Witness for the amended claim C9, on a transport that always raises
`ConnectionError`, with no retries allowed. -/
theorem C9_transient_error_payload_witness :
    (fetchLoop alwaysConnectionError "https://api.example.com/users/42" 0 1
        (1 / 2)).result =
      .error (.transientAPIError (networkErrorMessage 0) (some .connectionError)) ∧
    ((∃ s b, alwaysConnectionError "https://api.example.com/users/42"
        (1 + (fetchLoop alwaysConnectionError "https://api.example.com/users/42"
          0 1 (1 / 2)).calls - 1) =
        .response s b ∧ _is_transient_status s = true ∧
        networkErrorMessage 0 = transientHTTPMessage 0 ∧
        (some TransportOutcome.connectionError : Option TransportOutcome) = none) ∨
    (alwaysConnectionError "https://api.example.com/users/42"
        (1 + (fetchLoop alwaysConnectionError "https://api.example.com/users/42"
          0 1 (1 / 2)).calls - 1) =
        .connectionError ∧ networkErrorMessage 0 = networkErrorMessage 0 ∧
        (some TransportOutcome.connectionError : Option TransportOutcome) =
          some .connectionError) ∨
    (alwaysConnectionError "https://api.example.com/users/42"
        (1 + (fetchLoop alwaysConnectionError "https://api.example.com/users/42"
          0 1 (1 / 2)).calls - 1) =
        .timeout ∧ networkErrorMessage 0 = networkErrorMessage 0 ∧
        (some TransportOutcome.connectionError : Option TransportOutcome) =
          some .timeout) ∨
    (∃ s, alwaysConnectionError "https://api.example.com/users/42"
        (1 + (fetchLoop alwaysConnectionError "https://api.example.com/users/42"
          0 1 (1 / 2)).calls - 1) =
        .httpError (some s) ∧ _is_transient_status s = true ∧
        networkErrorMessage 0 = transientHTTPMessage 0 ∧
        (some TransportOutcome.connectionError : Option TransportOutcome) =
          some (.httpError (some s))) ∨
    (alwaysConnectionError "https://api.example.com/users/42"
        (1 + (fetchLoop alwaysConnectionError "https://api.example.com/users/42"
          0 1 (1 / 2)).calls - 1) =
        .requestException ∧ networkErrorMessage 0 = requestErrorMessage 0 ∧
        (some TransportOutcome.connectionError : Option TransportOutcome) =
          some .requestException)) := by
  have h : (fetchLoop alwaysConnectionError "https://api.example.com/users/42" 0 1
      (1 / 2)).result =
      .error (.transientAPIError (networkErrorMessage 0) (some .connectionError)) := by
    rw [fetchLoop_networkRaise alwaysConnectionError
      "https://api.example.com/users/42" 0 1 (1 / 2) (Or.inl rfl) (by decide)]
    rfl
  exact ⟨h, C9_transient_error_payload alwaysConnectionError
    "https://api.example.com/users/42" 0 (1 / 2) (networkErrorMessage 0)
    (some .connectionError) h⟩
